import Mathlib

/-!
Shallow embedding of the chatter worker (src/src/lib.rs): an axum edge
router running on Cloudflare Workers in front of a single durable-object
actor named CHATROOM that owns an in-memory vector of messages. Pure
request processing is embedded as Lean functions; the durable-object
state is the messages vector, passed explicitly; panics — the todo
macro arms and failing unwrap calls — surface as Except errors.
-/

set_option autoImplicit false

/-- Message from src/src/lib.rs: a serde struct with a single string
field named content. -/
structure Message where
  content : String
deriving DecidableEq

/-- MessageList from src/src/lib.rs: the JSON response shape holding the
full log under a messages key. -/
structure MessageList where
  messages : List Message
deriving DecidableEq

/-- JSON values, the shape serde_json parses request bodies into. -/
inductive Json where
  | null
  | bool (b : Bool)
  | num (n : Int)
  | str (s : String)
  | arr (elems : List Json)
  | obj (fields : List (String × Json))

/-- First binding of a key in a JSON object's field list, in field order.
Duplicate keys, which serde rejects for a derived struct, are not
modelled; no claim exercises them. -/
def lookupField (key : String) : List (String × Json) → Option Json
  | [] => none
  | (k, v) :: rest => if k = key then some v else lookupField key rest

/-- The serde Deserialize derive on Message: a JSON object whose content
field is a string parses to that Message; unknown fields are ignored
(the struct does not opt into deny_unknown_fields); any other JSON value,
or an object without a string content field, fails to parse. -/
def parseMessage : Json → Option Message
  | Json.obj fields =>
      match lookupField "content" fields with
      | some (Json.str s) => some ⟨s⟩
      | _ => none
  | _ => none

/-- The serde Serialize derive on Message, as used by serde_json in
post_messages when forwarding the payload to the actor. -/
def serializeMessage (m : Message) : Json :=
  Json.obj [("content", Json.str m.content)]

/-- HTTP methods of worker::Method, the enum Chatroom::fetch matches on. -/
inductive Method where
  | head
  | get
  | post
  | put
  | patch
  | delete
  | options
  | connect
  | trace
deriving DecidableEq

/-- The parts of a worker request that Chatroom::fetch inspects: path,
method and body. A body of none models an absent or non-JSON body, whose
text serde then fails to parse. -/
structure WorkerRequest where
  path : String
  method : Method
  body : Option Json

/-- How a call into Chatroom::fetch can fail. The todo constructor models
the todo macro arms (a panic); unwrapFailed models the unwrap call after
a failed serde parse of the POST body (also a panic). The
unsupportedOperation constructor is the error kind the specification's
taxonomy names for unmapped requests: it is declared so that statements
about it can be written, and no code path produces it. -/
inductive ActorError where
  | todo
  | unwrapFailed
  | unsupportedOperation
deriving DecidableEq

/-- Successful responses Chatroom::fetch builds with Response::from_json:
the JSON null produced for the root path (serializing None), or a
MessageList for the messages path. -/
inductive ActorResponse where
  | jsonNull
  | messageList (l : MessageList)
deriving DecidableEq

/-- The observable durable-object state of a fresh Chatroom, as built by
DurableObject::new in src/src/lib.rs: an empty messages vector. The env
and platform state fields carry no data the claims observe. -/
def Chatroom.new : List Message := []

/-- Chatroom::fetch from src/src/lib.rs, as a function from the current
messages vector and the incoming request to the updated messages vector
and the result. The root path answers JSON null for every method; GET on
the messages path answers the current log; POST parses the body as a
Message, pushes it and answers the whole updated log; every other arm is
a todo panic, and a failing body parse is a failing unwrap. -/
def Chatroom.fetch (messages : List Message) (req : WorkerRequest) :
    List Message × Except ActorError ActorResponse :=
  if req.path = "/" then
    (messages, Except.ok ActorResponse.jsonNull)
  else if req.path = "/messages" then
    match req.method with
    | Method.get => (messages, Except.ok (ActorResponse.messageList ⟨messages⟩))
    | Method.post =>
        match req.body with
        | none => (messages, Except.error ActorError.unwrapFailed)
        | some b =>
            match parseMessage b with
            | some newMessage =>
                (messages ++ [newMessage],
                  Except.ok (ActorResponse.messageList ⟨messages ++ [newMessage]⟩))
            | none => (messages, Except.error ActorError.unwrapFailed)
    | _ => (messages, Except.error ActorError.todo)
  else
    (messages, Except.error ActorError.todo)

/-- Sequential processing of a list of requests by the actor, one at a
time in arrival order, threading the messages vector. -/
def Chatroom.processAll (messages : List Message) : List WorkerRequest → List Message
  | [] => messages
  | r :: rs => Chatroom.processAll (Chatroom.fetch messages r).1 rs

/-- Failures the question-mark operators in fetch_chatroom can propagate
from the platform. The directoryUnavailable constructor covers the
durable_object, id_from_name and get_stub calls failing, before any
request is sent. The transportError constructor covers the
fetch_with_request call or the text call on its response failing; its
delivered flag records whether the request had already reached the
durable object when the failure happened — when it is true the actor
processed the request and only the response was lost, so an applied
Append is not rolled back. -/
inductive WorkerError where
  | directoryUnavailable
  | transportError (delivered : Bool)
deriving DecidableEq

/-- The durable-object binding name fetch_chatroom asks the environment
for. -/
def chatroomBinding : String := "CHATROOM"

/-- The instance name fetch_chatroom passes to id_from_name. -/
def chatroomInstanceName : String := "CHATROOM"

/-- An actor call as issued by an edge handler through fetch_chatroom:
the binding and instance name fetch_chatroom resolves, and the worker
request the handler builds. -/
structure ActorCall where
  binding : String
  instanceName : String
  req : WorkerRequest

/-- The call the root handler issues: GET on the root path. -/
def rootCall : ActorCall :=
  ⟨chatroomBinding, chatroomInstanceName, ⟨"/", Method.get, none⟩⟩

/-- The call the get_messages handler issues: GET on the messages path. -/
def getMessagesCall : ActorCall :=
  ⟨chatroomBinding, chatroomInstanceName, ⟨"/messages", Method.get, none⟩⟩

/-- The call the post_messages handler issues for a parsed payload: POST
on the messages path with the re-serialized payload as body. -/
def postMessagesCall (payload : Message) : ActorCall :=
  ⟨chatroomBinding, chatroomInstanceName,
    ⟨"/messages", Method.post, some (serializeMessage payload)⟩⟩

/-- What an edge handler invocation produces for its caller. The ok
constructor is a parsed MessageList response; okRaw is the raw actor
response the root handler forwards; invalidRequestBody is the rejection
issued before post_messages runs when the body does not deserialize into
Message; panicked models a failing unwrap inside the handler — on a
fetch_chatroom error or on a response that does not parse as
MessageList. -/
inductive EdgeOutcome where
  | ok (l : MessageList)
  | okRaw (r : ActorResponse)
  | invalidRequestBody
  | panicked
deriving DecidableEq

/-- The observable effect of one edge handler invocation: the actor's
messages vector afterwards, the outcome reported to the caller, and
whether the actor was invoked at all. -/
structure EdgeStep where
  messages : List Message
  outcome : EdgeOutcome
  actorInvoked : Bool
deriving DecidableEq

/-- get_messages from src/src/lib.rs: calls fetch_chatroom with the GET
messages request and unwraps both the call's Result and the MessageList
parse of the response. The fail argument is the outcome of the external
directory and transport used by fetch_chatroom; none means the call and
its response both succeed. A directory failure or a transport failure
before delivery means the actor never saw the request; a transport
failure after delivery means the actor processed the request and only
the response was lost. -/
def get_messages (messages : List Message) (fail : Option WorkerError) :
    EdgeStep :=
  match fail with
  | some WorkerError.directoryUnavailable =>
      ⟨messages, EdgeOutcome.panicked, false⟩
  | some (WorkerError.transportError false) =>
      ⟨messages, EdgeOutcome.panicked, false⟩
  | some (WorkerError.transportError true) =>
      ⟨(Chatroom.fetch messages getMessagesCall.req).1,
        EdgeOutcome.panicked, true⟩
  | none =>
      match Chatroom.fetch messages getMessagesCall.req with
      | (ms, Except.ok (ActorResponse.messageList l)) =>
          ⟨ms, EdgeOutcome.ok l, true⟩
      | (ms, _) => ⟨ms, EdgeOutcome.panicked, true⟩

/-- post_messages from src/src/lib.rs together with its axum Json
extractor. Modelled from the spec: the extractor is library code not
under src/, and per the specification a POST body that cannot be parsed
into a Message fails before any operation is constructed, so the actor
is never invoked. On a parsed payload the handler re-serializes it,
calls fetch_chatroom with the POST messages request, and unwraps the
call's Result and the MessageList parse of the response. -/
def post_messages (messages : List Message) (fail : Option WorkerError)
    (body : Json) : EdgeStep :=
  match parseMessage body with
  | none => ⟨messages, EdgeOutcome.invalidRequestBody, false⟩
  | some payload =>
      match fail with
      | some WorkerError.directoryUnavailable =>
          ⟨messages, EdgeOutcome.panicked, false⟩
      | some (WorkerError.transportError false) =>
          ⟨messages, EdgeOutcome.panicked, false⟩
      | some (WorkerError.transportError true) =>
          ⟨(Chatroom.fetch messages (postMessagesCall payload).req).1,
            EdgeOutcome.panicked, true⟩
      | none =>
          match Chatroom.fetch messages (postMessagesCall payload).req with
          | (ms, Except.ok (ActorResponse.messageList l)) =>
              ⟨ms, EdgeOutcome.ok l, true⟩
          | (ms, _) => ⟨ms, EdgeOutcome.panicked, true⟩

/-- root from src/src/lib.rs: calls fetch_chatroom with the GET root
request, unwraps the call's Result and forwards the raw response. -/
def root (messages : List Message) (fail : Option WorkerError) : EdgeStep :=
  match fail with
  | some WorkerError.directoryUnavailable =>
      ⟨messages, EdgeOutcome.panicked, false⟩
  | some (WorkerError.transportError false) =>
      ⟨messages, EdgeOutcome.panicked, false⟩
  | some (WorkerError.transportError true) =>
      ⟨(Chatroom.fetch messages rootCall.req).1, EdgeOutcome.panicked, true⟩
  | none =>
      match Chatroom.fetch messages rootCall.req with
      | (ms, Except.ok r) => ⟨ms, EdgeOutcome.okRaw r, true⟩
      | (ms, _) => ⟨ms, EdgeOutcome.panicked, true⟩

/-- The POST messages request carrying a given content string, exactly
what postMessagesCall sends for that payload. -/
def postReq (c : String) : WorkerRequest :=
  ⟨"/messages", Method.post, some (Json.obj [("content", Json.str c)])⟩

/-- Parsing an object whose only field is a string content binding yields
the Message with that content. -/
theorem parseMessage_content_obj (c : String) :
    parseMessage (Json.obj [("content", Json.str c)]) = some ⟨c⟩ := rfl

/-- A POST of a well-formed content body appends the message and answers
the whole updated log. -/
theorem fetch_postReq (messages : List Message) (c : String) :
    Chatroom.fetch messages (postReq c) =
      (messages ++ [⟨c⟩],
        Except.ok (ActorResponse.messageList ⟨messages ++ [⟨c⟩]⟩)) := rfl

/-- Chatroom::fetch either leaves the messages vector unchanged or
appends exactly one message at the end. -/
theorem fetch_state_eq_or_append (messages : List Message)
    (req : WorkerRequest) :
    (Chatroom.fetch messages req).1 = messages ∨
      ∃ m, (Chatroom.fetch messages req).1 = messages ++ [m] := by
  obtain ⟨p, m, b⟩ := req
  simp only [Chatroom.fetch]
  split_ifs with h1 h2
  · exact Or.inl rfl
  · cases m with
    | get => exact Or.inl rfl
    | post =>
        cases b with
        | none => exact Or.inl rfl
        | some j =>
            cases hp : parseMessage j with
            | none => exact Or.inl (by simp [hp])
            | some msg => exact Or.inr ⟨msg, by simp [hp]⟩
    | head => exact Or.inl rfl
    | put => exact Or.inl rfl
    | patch => exact Or.inl rfl
    | delete => exact Or.inl rfl
    | options => exact Or.inl rfl
    | connect => exact Or.inl rfl
    | trace => exact Or.inl rfl
  · exact Or.inl rfl

/-- Processing a list of well-formed POSTs appends the corresponding
messages in order. -/
theorem processAll_postReqs (contents : List String) :
    ∀ messages : List Message,
      Chatroom.processAll messages (contents.map postReq) =
        messages ++ contents.map (fun c => (⟨c⟩ : Message)) := by
  induction contents with
  | nil => intro ms; simp [Chatroom.processAll]
  | cons c cs ih =>
      intro ms
      simp only [List.map_cons, Chatroom.processAll, fetch_postReq]
      rw [ih]
      simp

/-- C1: for every log state and content string c, a POST of the body
holding content c at the edge appends that message at the end, returns
the entire updated log — all previous messages in order followed by the
new one — and the last element's content is exactly c. -/
theorem c1_append_returns_full_log (messages : List Message) (c : String) :
    post_messages messages none (Json.obj [("content", Json.str c)]) =
        ⟨messages ++ [⟨c⟩], EdgeOutcome.ok ⟨messages ++ [⟨c⟩]⟩, true⟩ ∧
      List.getLast? (messages ++ [(⟨c⟩ : Message)]) = some ⟨c⟩ := by
  constructor
  · rfl
  · simp

/-- C2: for every log state, a GET on the messages path returns exactly
the current log, leaves the state unchanged, and succeeds. -/
theorem c2_list_verbatim_pure_total (messages : List Message) :
    Chatroom.fetch messages getMessagesCall.req =
      (messages, Except.ok (ActorResponse.messageList ⟨messages⟩)) := rfl

/-- C8: all three edge entry points resolve the same fixed binding and
instance name CHATROOM, so every external call addresses the same single
actor instance. -/
theorem c8_same_actor_name :
    rootCall.binding = "CHATROOM" ∧
      rootCall.instanceName = "CHATROOM" ∧
      getMessagesCall.binding = "CHATROOM" ∧
      getMessagesCall.instanceName = "CHATROOM" ∧
      (∀ p : Message, (postMessagesCall p).binding = "CHATROOM" ∧
        (postMessagesCall p).instanceName = "CHATROOM") ∧
      (∀ p : Message, rootCall.instanceName = getMessagesCall.instanceName ∧
        getMessagesCall.instanceName = (postMessagesCall p).instanceName) :=
  ⟨rfl, rfl, rfl, rfl, fun _ => ⟨rfl, rfl⟩, fun _ => ⟨rfl, rfl⟩⟩

/-- C9: a freshly created actor holds an empty log, and a GET issued
before any append returns the empty message list. -/
theorem c9_fresh_actor_empty :
    Chatroom.new = ([] : List Message) ∧
      get_messages Chatroom.new none = ⟨[], EdgeOutcome.ok ⟨[]⟩, true⟩ :=
  ⟨rfl, rfl⟩

/-- C4: processing never removes or mutates existing messages — the log
before any single operation is a prefix of the log after it; sequential
POSTs append their messages exactly in processing order; and on a fresh
actor two POSTs of a then b followed by a GET return the two messages in
that order. -/
theorem c4_append_only_order_preserved :
    (∀ (messages : List Message) (req : WorkerRequest),
        ∃ t, (Chatroom.fetch messages req).1 = messages ++ t) ∧
      (∀ (messages : List Message) (contents : List String),
        Chatroom.processAll messages (contents.map postReq) =
          messages ++ contents.map (fun c => (⟨c⟩ : Message))) ∧
      Chatroom.fetch
          (Chatroom.processAll Chatroom.new [postReq "a", postReq "b"])
          getMessagesCall.req =
        ([⟨"a"⟩, ⟨"b"⟩],
          Except.ok (ActorResponse.messageList ⟨[⟨"a"⟩, ⟨"b"⟩]⟩)) := by
  refine ⟨fun messages req => ?_, fun messages contents =>
    processAll_postReqs contents messages, rfl⟩
  rcases fetch_state_eq_or_append messages req with h | ⟨m, h⟩
  · exact ⟨[], by simpa using h⟩
  · exact ⟨[m], h⟩

/-- C5 counterexample: a PUT on the messages path does not produce an
UnsupportedOperation error result — the todo macro arm panics instead,
so the result is the distinct error value for a panic. -/
theorem c5_counterexample :
    (Chatroom.fetch [] ⟨"/messages", Method.put, none⟩).2 ≠
      Except.error ActorError.unsupportedOperation := by
  intro h
  exact ActorError.noConfusion (Except.error.inj h)

/-- C5 amended: a request whose path is neither the root nor the
messages path, or a messages-path request whose method is neither GET
nor POST, hits a todo macro arm — an untyped panic, not an
UnsupportedOperation error result — and the log is left unchanged. -/
theorem c5_unmapped_requests_panic_state_unchanged
    (messages : List Message) (req : WorkerRequest)
    (h : (req.path ≠ "/" ∧ req.path ≠ "/messages") ∨
      (req.path = "/messages" ∧ req.method ≠ Method.get ∧
        req.method ≠ Method.post)) :
    Chatroom.fetch messages req = (messages, Except.error ActorError.todo) := by
  obtain ⟨p, m, b⟩ := req
  rcases h with ⟨h1, h2⟩ | ⟨h1, h2, h3⟩
  · simp only [Chatroom.fetch]
    rw [if_neg h1, if_neg h2]
  · simp only at h1 h2 h3
    subst h1
    cases m with
    | get => exact absurd rfl h2
    | post => exact absurd rfl h3
    | head => rfl
    | put => rfl
    | patch => rfl
    | delete => rfl
    | options => rfl
    | connect => rfl
    | trace => rfl

/-- C5 witness: the amended statement evaluated at a GET on an unknown
path. -/
theorem c5_unmapped_requests_witness :
    Chatroom.fetch [] ⟨"/nope", Method.get, none⟩ =
      ([], Except.error ActorError.todo) :=
  c5_unmapped_requests_panic_state_unchanged [] ⟨"/nope", Method.get, none⟩
    (Or.inl ⟨by decide, by decide⟩)

/-- C6: a POST body that does not deserialize into Message is rejected
as InvalidRequestBody before any operation is constructed, the actor is
never invoked, and the log is unchanged. -/
theorem c6_invalid_body_rejected_before_actor (messages : List Message)
    (fail : Option WorkerError) (body : Json)
    (h : parseMessage body = none) :
    post_messages messages fail body =
      ⟨messages, EdgeOutcome.invalidRequestBody, false⟩ := by
  simp [post_messages, h]

/-- C6 witness: the statement evaluated at an empty JSON object, which
lacks the content field. -/
theorem c6_invalid_body_witness :
    post_messages [] none (Json.obj []) =
      ⟨[], EdgeOutcome.invalidRequestBody, false⟩ :=
  c6_invalid_body_rejected_before_actor [] none (Json.obj []) rfl

/-- C7 counterexample: when directory resolution fails, get_messages
does not convert the failure into a caller-visible error response — the
unwrap in the handler panics, an untyped failure. -/
theorem c7_counterexample :
    (get_messages [] (some WorkerError.directoryUnavailable)).outcome =
      EdgeOutcome.panicked := rfl

/-- C7 amended: fetch_chatroom propagates every directory and transport
failure typed inside its Result value, but each edge handler unwraps
that Result, so such a failure surfaces to the caller as a panic — an
untyped failure rather than a structured error response — and is never
masked as a success. A directory failure or a transport failure before
delivery leaves the log unchanged with the actor never invoked; a
transport failure after the actor processed a POST leaves the appended
message in the log, since nothing rolls an applied Append back. -/
theorem c7_failures_surface_as_panics (messages : List Message)
    (e : WorkerError) (c : String) :
    (get_messages messages (some e)).outcome = EdgeOutcome.panicked ∧
      (root messages (some e)).outcome = EdgeOutcome.panicked ∧
      (post_messages messages (some e)
          (Json.obj [("content", Json.str c)])).outcome =
        EdgeOutcome.panicked ∧
      (get_messages messages (some e)).messages = messages ∧
      (root messages (some e)).messages = messages ∧
      post_messages messages (some WorkerError.directoryUnavailable)
          (Json.obj [("content", Json.str c)]) =
        ⟨messages, EdgeOutcome.panicked, false⟩ ∧
      post_messages messages (some (WorkerError.transportError false))
          (Json.obj [("content", Json.str c)]) =
        ⟨messages, EdgeOutcome.panicked, false⟩ ∧
      post_messages messages (some (WorkerError.transportError true))
          (Json.obj [("content", Json.str c)]) =
        ⟨messages ++ [⟨c⟩], EdgeOutcome.panicked, true⟩ := by
  cases e with
  | directoryUnavailable => exact ⟨rfl, rfl, rfl, rfl, rfl, rfl, rfl, rfl⟩
  | transportError d =>
      cases d with
      | false => exact ⟨rfl, rfl, rfl, rfl, rfl, rfl, rfl, rfl⟩
      | true => exact ⟨rfl, rfl, rfl, rfl, rfl, rfl, rfl, rfl⟩

/-- Looking a key up in a concatenation falls through to the second list
when the first holds no binding for it. -/
theorem lookupField_append_of_none (key : String) (l1 l2 : List (String × Json))
    (h : lookupField key l1 = none) :
    lookupField key (l1 ++ l2) = lookupField key l2 := by
  induction l1 with
  | nil => rfl
  | cons kv rest ih =>
      obtain ⟨k, v⟩ := kv
      by_cases hk : k = key
      · exact absurd h (by simp [lookupField, hk])
      · have h' : lookupField key rest = none := by
          simpa [lookupField, hk] using h
        simpa [lookupField, hk] using ih h'

/-- C10: a POST body that is an object holding a string content field is
accepted even in the presence of additional unrecognized fields: the
extras are discarded, only the content string is stored and echoed back,
and the outcome is not InvalidRequestBody. -/
theorem c10_unknown_fields_ignored (messages : List Message) (c : String)
    (extras : List (String × Json))
    (h : lookupField "content" extras = none) :
    post_messages messages none
        (Json.obj (extras ++ [("content", Json.str c)])) =
      ⟨messages ++ [⟨c⟩], EdgeOutcome.ok ⟨messages ++ [⟨c⟩]⟩, true⟩ := by
  have hparse : parseMessage (Json.obj (extras ++ [("content", Json.str c)])) =
      some ⟨c⟩ := by
    simp [parseMessage, lookupField_append_of_none "content" extras _ h,
      lookupField]
  simp only [post_messages, hparse]
  rfl

/-- C10 witness: the statement evaluated at a body carrying one extra
field besides the content field. -/
theorem c10_unknown_fields_witness :
    post_messages [] none
        (Json.obj ([("author", Json.str "bot")] ++
          [("content", Json.str "hi")])) =
      ⟨[⟨"hi"⟩], EdgeOutcome.ok ⟨[⟨"hi"⟩]⟩, true⟩ :=
  c10_unknown_fields_ignored [] "hi" [("author", Json.str "bot")] rfl
